import Mathlib

/-!
Shallow embedding of `src/orion-ui/src/services/uiSettings.ts`: a single-flight,
memoized loader for runtime UI settings fetched from `GET /ui-settings`, with a
typed getter and a toast notification on connectivity failure.

The source is single-threaded JavaScript. A call to `load()` runs synchronously
up to its first suspension point; the continuation registered on the axios
promise chain runs later, when the fetch settles. We model the static state of
the `UiSettings` class (plus the observable request count and the toasts shown)
as `UiState`, the synchronous prefix of one `load()` call as `loadStart`, and
the promise-chain continuation as `settle`, parameterised by the outcome of the
single network request.
-/

/-- Wire format of the response body (`SettingsResponse` in the source). -/
structure SettingsResponse where
  api_url : String
  deriving Repr, DecidableEq

/-- Mapped settings shape (`Settings` in the source). -/
structure Settings where
  apiUrl : String
  deriving Repr, DecidableEq

/-- An axios response object carrying the parsed JSON body in its `data` field. -/
structure AxiosResponse where
  data : SettingsResponse
  deriving Repr, DecidableEq

/-- Outcome of the single `axios.get` call: either a response, or an error value
whose `status` field may be absent (connectivity-layer failure, modelled as
`none`) or present with a numeric value. -/
inductive FetchOutcome where
  | success (response : AxiosResponse)
  | failure (status : Option Nat)
  deriving Repr, DecidableEq

/-- A toast notification as issued by `showToast(message, severity, options)`;
`timeout = false` is the non-expiring display duration. -/
structure Toast where
  message : String
  severity : String
  timeout : Bool
  deriving Repr, DecidableEq

/-- The toast issued in the catch handler of `load`, line 36 of the source:
`showToast(toastMessage, ...)` with the fixed `ConnectionToastMessage`
component, severity `error`, and `timeout: false`. -/
def connectionToast : Toast :=
  { message := "ConnectionToastMessage", severity := "error", timeout := false }

/-- JavaScript truthiness of `error.status`, a possibly-absent number:
`undefined` and `0` are falsy, every other number is truthy. The source guard
on line 34 is `!error.status`. -/
def statusTruthy : Option Nat → Bool
  | none => false
  | some n => n != 0

/-- JS runtime errors arising in the promise chain (not thrown by the source
code itself). -/
inductive JsError where
  | typeError (msg : String)
  deriving Repr, DecidableEq

/-- `mapSettingsResponse` from the source (lines 63-69): renames the snake-case
`api_url` field of the response body to the camelCase `apiUrl`. -/
def mapSettingsResponse (response : AxiosResponse) : Settings :=
  { apiUrl := response.data.api_url }

/-- Runtime application of `mapSettingsResponse` to the value flowing out of
the `.catch` step, which may be `undefined` (modelled as `none`): the property
access `response.data` on `undefined` throws a `TypeError` at runtime. -/
def mapSettingsResponseJs (response : Option AxiosResponse) : Except JsError Settings :=
  match response with
  | none => .error (.typeError "Cannot read properties of undefined (reading data)")
  | some r => .ok (mapSettingsResponse r)

/-- The value the `.catch` step passes on to `.then(mapSettingsResponse)`: the
response on success; on failure the catch handler body returns no value, i.e.
`undefined` (modelled as `none`). -/
def chainInput : FetchOutcome → Option AxiosResponse
  | .success r => some r
  | .failure _ => none

/-- Fate of the outer `new Promise` created on line 30. `resolve` is invoked
only when `.then(mapSettingsResponse)` produces a value; a throw inside the
chain rejects the inner chain, but the executor merely returns that rejected
promise, which `new Promise` discards, so the outer promise then stays pending
forever. In particular the outer promise can never reject. -/
inductive PromiseFate where
  | resolved (s : Settings)
  | rejected (e : JsError)
  | pending
  deriving Repr, DecidableEq

/-- Fate of the outer promise as a function of the fetch outcome. -/
def promiseFate (o : FetchOutcome) : PromiseFate :=
  match mapSettingsResponseJs (chainInput o) with
  | .ok s => .resolved s
  | .error _ => .pending

/-- The value, if any, with which the outer promise resolves; `none` means the
promise never settles and every awaiter stays suspended forever. -/
def promiseResult (o : FetchOutcome) : Option Settings :=
  match promiseFate o with
  | .resolved s => some s
  | _ => none

/-- The `baseUrl` initializer (line 19 of the source):
`MODE() === "development" ? "http://127.0.0.1:4200" : window.location.origin`. -/
def computeBaseUrl (mode : String) (origin : String) : String :=
  if mode = "development" then "http://127.0.0.1:4200" else origin

/-- Static state of the `UiSettings` class: the cached settings slot, the
in-flight promise slot (tracked as a flag; its eventual value is a function of
the fetch outcome), the resolved base URL, plus two observables: how many
network requests were issued and which toasts were shown. -/
structure UiState where
  settings : Option Settings
  promiseActive : Bool
  requestCount : Nat
  toasts : List Toast
  baseUrl : String
  deriving Repr, DecidableEq

/-- State at class initialization: both slots empty, base URL computed once
from the mode resolver and the page origin. -/
def initState (mode origin : String) : UiState :=
  { settings := none
    promiseActive := false
    requestCount := 0
    toasts := []
    baseUrl := computeBaseUrl mode origin }

/-- What the synchronous prefix of one `load()` call did before suspending or
returning: returned the cached settings (lines 22-24), returned the existing
in-flight promise (lines 26-28), or created the promise, issuing the network
request, and suspended on it (lines 30-41). -/
inductive LoadStart where
  | cached (s : Settings)
  | joined
  | started
  deriving Repr, DecidableEq

/-- Synchronous prefix of `load()`. Only the `started` branch touches the
state: it sets the promise slot and issues exactly one network request. -/
def loadStart (st : UiState) : LoadStart × UiState :=
  match st.settings with
  | some s => (.cached s, st)
  | none =>
    if st.promiseActive then
      (.joined, st)
    else
      (.started, { st with promiseActive := true, requestCount := st.requestCount + 1 })

/-- Continuation run when the fetch settles with outcome `o`: on failure the
`.catch` handler shows the connection toast exactly when `error.status` is
falsy; the chain then feeds `mapSettingsResponse`. If the chain produces a
value, `resolve` fires and the first caller resumes at line 43, writing
`this.settings = settings`; if the chain throws, `resolve` never fires and the
settings slot is left untouched. -/
def settle (st : UiState) (o : FetchOutcome) : UiState :=
  let toasts :=
    match o with
    | .success _ => st.toasts
    | .failure status =>
      if statusTruthy status then st.toasts else st.toasts ++ [connectionToast]
  match promiseResult o with
  | some s => { st with toasts := toasts, settings := some s }
  | none => { st with toasts := toasts }

/-- Run the synchronous prefixes of `n` consecutive `load()` calls, all issued
before the fetch settles, collecting what each call did. -/
def runCalls (st : UiState) : Nat → List LoadStart × UiState
  | 0 => ([], st)
  | n + 1 =>
    let (r, st1) := loadStart st
    let (rs, st2) := runCalls st1 n
    (r :: rs, st2)

/-- The eventual result observed by one caller of `load()`, given how its call
started and the fetch outcome: a caller served from the cache resumes with the
cached value at once; a caller that created or joined the in-flight promise
resumes with its resolution value, or never (`none`) if it never settles. -/
def callerResult (r : LoadStart) (o : FetchOutcome) : Option Settings :=
  match r with
  | .cached s => some s
  | .joined => promiseResult o
  | .started => promiseResult o

/-- A full, isolated `load()` call from state `st`, where the fetch (if one is
issued) settles with outcome `o`: the result the caller eventually observes
(`none` = the call never returns) and the final state. -/
def loadRun (st : UiState) (o : FetchOutcome) : Option Settings × UiState :=
  match loadStart st with
  | (.cached s, st1) => (some s, st1)
  | (_, st1) => (promiseResult o, settle st1 o)

/-- JS member access `settings[key]` on a `Settings` object: the only own
property is `apiUrl`; any other key reads as `undefined` (`none`). -/
def settingsIndex (s : Settings) (key : String) : Option String :=
  if key = "apiUrl" then some s.apiUrl else none

/-- The string thrown by `get` on line 56 of the source. -/
def getErrorMessage (setting : String) : String :=
  "UI setting \"" ++ setting ++ "\" does not exist and no default was provided."

/-- Body of `get` after `await this.load()` has resumed (lines 49-59): look up
`this.settings?.[setting]`; if the value is `undefined`, return the default if
it is truthy (the guard is `if (defaultValue)`, so `undefined` and the empty
string are both rejected), else throw the message string; otherwise return the
value. -/
def getAfterLoad (st : UiState) (setting : String) (defaultValue : Option String) :
    Except String String :=
  match st.settings.bind (fun s => settingsIndex s setting) with
  | some v => .ok v
  | none =>
    match defaultValue with
    | some d => if d ≠ "" then .ok d else .error (getErrorMessage setting)
    | none => .error (getErrorMessage setting)

/-- A full `get(setting, defaultValue)` call from state `st`: awaits `load()`
(whose fetch, if issued, settles with outcome `o`), then runs the lookup.
`none` means the call never returns because `load()` never does. -/
def getRun (st : UiState) (o : FetchOutcome) (setting : String)
    (defaultValue : Option String) : Option (Except String String) × UiState :=
  match loadStart st with
  | (.cached _, st1) => (some (getAfterLoad st1 setting defaultValue), st1)
  | (_, st1) =>
    let st2 := settle st1 o
    match promiseResult o with
    | some _ => (some (getAfterLoad st2 setting defaultValue), st2)
    | none => (none, st2)

/-! ## Theorems -/

/-- Claim C1: once `load()` has resolved once (the cached settings slot is
non-null), every subsequent call to `load()` returns the cached `Settings`
value immediately and issues no new network request: any run of `k` further
calls returns the cached value each time and leaves the state — in particular
its request count — unchanged. -/
theorem load_cached_no_refetch (st : UiState) (s : Settings) (k : Nat)
    (h : st.settings = some s) :
    runCalls st k = (List.replicate k (.cached s), st) := by
  induction k with
  | zero => simp [runCalls]
  | succ n ih => simp [runCalls, loadStart, h, ih, List.replicate]

/-- Witness for C1 at a concrete loaded state and two further calls. -/
theorem load_cached_no_refetch_witness :
    runCalls
        { settings := some { apiUrl := "http://example.com" }
          promiseActive := true
          requestCount := 1
          toasts := []
          baseUrl := "http://127.0.0.1:4200" } 2
      = (List.replicate 2 (.cached { apiUrl := "http://example.com" }),
          { settings := some { apiUrl := "http://example.com" }
            promiseActive := true
            requestCount := 1
            toasts := []
            baseUrl := "http://127.0.0.1:4200" }) :=
  load_cached_no_refetch _ _ 2 rfl

/-- Helper: while the in-flight promise slot is set and nothing is cached,
every further synchronous `load()` prefix joins the promise and leaves the
state unchanged. -/
theorem runCalls_inflight (st : UiState) (h1 : st.settings = none)
    (h2 : st.promiseActive = true) (n : Nat) :
    runCalls st n = (List.replicate n .joined, st) := by
  induction n with
  | zero => simp [runCalls]
  | succ k ih => simp [runCalls, loadStart, h1, h2, ih, List.replicate]

/-- Claim C2: for every sequence of `n ≥ 1` concurrent `load()` calls issued
before the first resolution, exactly one network request is made (the first
call starts it, all later callers join the same in-flight promise), and every
caller resolves to the identical value, namely the resolution value of the one
shared promise; on a successful fetch that value is the mapped response. -/
theorem single_flight (mode origin : String) (n : Nat) (o : FetchOutcome)
    (h : 1 ≤ n) :
    (runCalls (initState mode origin) n).2.requestCount = 1 ∧
    (runCalls (initState mode origin) n).1
      = .started :: List.replicate (n - 1) .joined ∧
    (∀ r ∈ (runCalls (initState mode origin) n).1,
      callerResult r o = promiseResult o) ∧
    (∀ response, o = .success response →
      promiseResult o = some (mapSettingsResponse response)) := by
  obtain ⟨m, rfl⟩ := Nat.exists_eq_add_of_le h
  have hstart :
      loadStart (initState mode origin)
        = (.started,
            { settings := none, promiseActive := true, requestCount := 1
              toasts := [], baseUrl := computeBaseUrl mode origin }) := by
    simp [loadStart, initState]
  have hrest := runCalls_inflight
    { settings := none, promiseActive := true, requestCount := 1
      toasts := [], baseUrl := computeBaseUrl mode origin } rfl rfl m
  have hrun : runCalls (initState mode origin) (1 + m)
      = (.started :: List.replicate m .joined,
          { settings := none, promiseActive := true, requestCount := 1
            toasts := [], baseUrl := computeBaseUrl mode origin }) := by
    rw [Nat.add_comm]
    simp [runCalls, hstart, hrest]
  have hm : 1 + m - 1 = m := by omega
  refine ⟨?_, ?_, ?_, ?_⟩
  · rw [hrun]
  · rw [hrun, hm]
  · intro r hr
    rw [hrun] at hr
    simp at hr
    rcases hr with rfl | ⟨-, rfl⟩ <;> rfl
  · rintro response rfl
    rfl

/-- Witness for C2 at three concurrent calls and a concrete successful fetch. -/
theorem single_flight_witness :
    (runCalls (initState "development" "https://app.example.com") 3).2.requestCount = 1 ∧
    (runCalls (initState "development" "https://app.example.com") 3).1
      = .started :: List.replicate (3 - 1) .joined ∧
    (∀ r ∈ (runCalls (initState "development" "https://app.example.com") 3).1,
      callerResult r (.success { data := { api_url := "http://example.com" } })
        = promiseResult (.success { data := { api_url := "http://example.com" } })) ∧
    (∀ response,
      FetchOutcome.success { data := { api_url := "http://example.com" } }
        = .success response →
      promiseResult (.success { data := { api_url := "http://example.com" } })
        = some (mapSettingsResponse response)) :=
  single_flight "development" "https://app.example.com" 3
    (.success { data := { api_url := "http://example.com" } }) (by decide)

/-- Claim C3: for a successful fetch whose JSON body is `api_url = s`, the
mapper renames `api_url` to `apiUrl`, `load()` caches the mapped settings, and
a subsequent `get` of the key `apiUrl` with no default returns `s`. -/
theorem success_maps_and_caches (mode origin s : String) :
    mapSettingsResponse { data := { api_url := s } } = { apiUrl := s } ∧
    (loadRun (initState mode origin) (.success { data := { api_url := s } })).2.settings
      = some { apiUrl := s } ∧
    (getRun (loadRun (initState mode origin) (.success { data := { api_url := s } })).2
        (.success { data := { api_url := s } }) "apiUrl" none).1
      = some (.ok s) := by
  refine ⟨rfl, ?_, ?_⟩ <;>
    simp [loadRun, getRun, loadStart, initState, settle, promiseResult, promiseFate,
      chainInput, mapSettingsResponseJs, mapSettingsResponse, getAfterLoad, settingsIndex]

/-- Claim C4 counterexample: the source guard is `!error.status` (truthiness,
not presence), so an error that carries the status field with value `0` — a
falsy number — still triggers the notification. The claim as stated says an
error with a status field shows zero notifications; here one notification is
shown. -/
theorem notify_shown_for_status_zero :
    (settle ((loadStart (initState "production" "https://app.example.com")).2)
        (.failure (some 0))).toasts
      = [connectionToast] := by
  simp [settle, loadStart, initState, statusTruthy, promiseResult, promiseFate,
    chainInput, mapSettingsResponseJs, computeBaseUrl]

/-- Claim C4 (amended): on a fetch failure, exactly one notification — the
fixed connection toast with severity `error` and non-expiring timeout — is
shown iff the status field of the error is falsy (absent, or present with value
`0`); a failure with a truthy (nonzero) status shows zero notifications, as
does a success. -/
theorem notify_on_connectivity_failure (st : UiState) (status : Option Nat)
    (response : AxiosResponse) :
    (settle st (.failure status)).toasts
      = (if statusTruthy status then st.toasts else st.toasts ++ [connectionToast]) ∧
    (settle st (.success response)).toasts = st.toasts ∧
    connectionToast.severity = "error" ∧
    connectionToast.timeout = false := by
  refine ⟨?_, ?_, rfl, rfl⟩ <;>
    cases hps : promiseResult (.failure status) <;>
      simp [settle, hps, promiseResult, promiseFate, chainInput, mapSettingsResponseJs,
        mapSettingsResponse]

/-- Claim C5: after `load()` completes (the settings slot holds some `s`), a
`get` of a key whose looked-up value is undefined, with no default supplied,
throws the message string naming the missing key; moreover every error thrown
by the `get` body carries exactly this message for its key, so this is the only
error the component intentionally raises. -/
theorem get_missing_key_throws (st : UiState) (s : Settings) (key : String)
    (h1 : st.settings = some s) (h2 : settingsIndex s key = none) :
    getAfterLoad st key none
      = .error ("UI setting \"" ++ key
          ++ "\" does not exist and no default was provided.") ∧
    (∀ st2 k2 dv e, getAfterLoad st2 k2 dv = .error e → e = getErrorMessage k2) := by
  constructor
  · simp [getAfterLoad, h1, h2, getErrorMessage]
  · intro st2 k2 dv e he
    unfold getAfterLoad at he
    split at he
    · simp at he
    · split at he
      · split at he
        · simp at he
        · exact (Except.error.inj he).symm
      · exact (Except.error.inj he).symm

/-- Witness for C5 at a concrete loaded state and the key `missingKey`. -/
theorem get_missing_key_throws_witness :
    getAfterLoad
        { settings := some { apiUrl := "http://example.com" }
          promiseActive := true
          requestCount := 1
          toasts := []
          baseUrl := "https://app.example.com" } "missingKey" none
      = .error ("UI setting \"" ++ "missingKey"
          ++ "\" does not exist and no default was provided.") :=
  (get_missing_key_throws _ { apiUrl := "http://example.com" } "missingKey" rfl
    (by decide)).1

/-- Claim C6 counterexample: the empty string is a valid value of the default
parameter, the key `missingKey` is absent from the loaded settings, yet `get`
does not return the supplied default — it throws instead, because the guard
`if (defaultValue)` tests truthiness. This refutes the claim for the supplied
default value `""`. -/
theorem get_empty_default_not_returned :
    getAfterLoad
        { settings := some { apiUrl := "http://example.com" }
          promiseActive := true
          requestCount := 1
          toasts := []
          baseUrl := "https://app.example.com" } "missingKey" (some "")
      ≠ .ok "" ∧
    getAfterLoad
        { settings := some { apiUrl := "http://example.com" }
          promiseActive := true
          requestCount := 1
          toasts := []
          baseUrl := "https://app.example.com" } "missingKey" (some "")
      = .error (getErrorMessage "missingKey") := by
  exact ⟨(fun h => nomatch h), rfl⟩

/-- Claim C6 (amended): for every key absent from the loaded settings
(looked-up value is undefined), `get` with a supplied truthy — that is,
non-empty — default returns that default value. -/
theorem get_default_returned (st : UiState) (key : String) (d : String)
    (h1 : st.settings.bind (fun s => settingsIndex s key) = none)
    (h2 : d ≠ "") :
    getAfterLoad st key (some d) = .ok d := by
  simp [getAfterLoad, h1, h2]

/-- Witness for the amended C6: `get` of `missingKey` with default `fallback`
returns `fallback`. -/
theorem get_default_returned_witness :
    getAfterLoad
        { settings := some { apiUrl := "http://example.com" }
          promiseActive := true
          requestCount := 1
          toasts := []
          baseUrl := "https://app.example.com" } "missingKey" (some "fallback")
      = .ok "fallback" :=
  get_default_returned _ "missingKey" "fallback" (by decide) (by decide)

/-- Claim C7: for every key whose looked-up value is undefined, a supplied
falsy-but-valid default — the empty string — is treated as absent: `get` does
not return it and fails exactly as if no default had been provided, because the
guard tests the truthiness of the default rather than comparing it against
`undefined`. -/
theorem get_falsy_default_treated_absent (st : UiState) (key : String)
    (h1 : st.settings.bind (fun s => settingsIndex s key) = none) :
    getAfterLoad st key (some "") = .error (getErrorMessage key) ∧
    getAfterLoad st key (some "") = getAfterLoad st key none := by
  constructor <;> simp [getAfterLoad, h1]

/-- Witness for C7 at a concrete loaded state and the key `missingKey`. -/
theorem get_falsy_default_treated_absent_witness :
    getAfterLoad
        { settings := some { apiUrl := "http://example.com" }
          promiseActive := true
          requestCount := 1
          toasts := []
          baseUrl := "https://example.org" } "missingKey" (some "")
      = .error (getErrorMessage "missingKey") :=
  (get_falsy_default_treated_absent _ "missingKey" (by decide)).1

/-- Claim C8: the base URL is `http://127.0.0.1:4200` exactly when the mode
resolver returns the literal `development`, and the current page origin for any
other mode; it is computed once at initialization and no subsequent step — a
synchronous `load()` prefix or a promise settlement — ever changes it. -/
theorem base_url_resolution (mode origin : String) (st : UiState)
    (o : FetchOutcome) :
    computeBaseUrl "development" origin = "http://127.0.0.1:4200" ∧
    (mode ≠ "development" → computeBaseUrl mode origin = origin) ∧
    (initState mode origin).baseUrl = computeBaseUrl mode origin ∧
    (loadStart st).2.baseUrl = st.baseUrl ∧
    (settle st o).baseUrl = st.baseUrl := by
  refine ⟨by simp [computeBaseUrl], fun h => by simp [computeBaseUrl, h], rfl, ?_, ?_⟩
  · unfold loadStart
    split
    · rfl
    · split <;> rfl
  · unfold settle
    cases promiseResult o <;> rfl

/-- Witness for C8 in development mode and another mode, with concrete state
and outcome. -/
theorem base_url_resolution_witness :
    computeBaseUrl "development" "https://app.example.com" = "http://127.0.0.1:4200" ∧
    computeBaseUrl "production" "https://app.example.com" = "https://app.example.com" ∧
    (loadStart (initState "production" "https://app.example.com")).2.baseUrl
      = (initState "production" "https://app.example.com").baseUrl :=
  ⟨(base_url_resolution "production" "https://app.example.com"
      (initState "production" "https://app.example.com") (.failure none)).1,
   (base_url_resolution "production" "https://app.example.com"
      (initState "production" "https://app.example.com") (.failure none)).2.1
      (by decide),
   (base_url_resolution "production" "https://app.example.com"
      (initState "production" "https://app.example.com") (.failure none)).2.2.2.1⟩

/-- Claim C9 counterexample: at a concrete connectivity failure, the caller of
`load()` never receives any settings value — degraded or otherwise — because
the mapper throws on the `undefined` response, `resolve` never fires, and the
promise stays pending with the settings slot still null. This refutes the part
of the claim asserting that callers see degraded, undefined-valued settings;
the part about no rejected promise reaching callers is proved in the amended
theorem. -/
theorem failure_caller_sees_nothing :
    (loadRun (initState "production" "https://app.example.com") (.failure none)).1
      = none ∧
    (loadRun (initState "production" "https://app.example.com") (.failure none)).2.settings
      = none ∧
    promiseFate (.failure none) = .pending := by
  refine ⟨?_, ?_, rfl⟩ <;>
    simp [loadRun, loadStart, initState, settle, promiseResult, promiseFate,
      chainInput, mapSettingsResponseJs]

/-- Claim C9 (amended): for every fetch failure, the failure is caught locally
and the promise returned by `load()` never rejects (for no outcome whatsoever
does it reject); the failure is passed — as the `undefined` yielded by the
catch handler — into the response mapper, whose property access throws, so the
promise never settles: callers of `load()` and `get()` never observe any
settings value, degraded or otherwise, and the settings slot stays null. -/
theorem failure_never_rejects (status : Option Nat) (mode origin : String)
    (key : String) (dv : Option String) :
    (∀ o e, promiseFate o ≠ .rejected e) ∧
    chainInput (.failure status) = none ∧
    mapSettingsResponseJs (chainInput (.failure status))
      = .error (.typeError "Cannot read properties of undefined (reading data)") ∧
    (loadRun (initState mode origin) (.failure status)).1 = none ∧
    (loadRun (initState mode origin) (.failure status)).2.settings = none ∧
    (getRun (initState mode origin) (.failure status) key dv).1 = none := by
  refine ⟨?_, rfl, rfl, ?_, ?_, ?_⟩
  · intro o e
    cases o with
    | success r => simp [promiseFate, chainInput, mapSettingsResponseJs]
    | failure s => simp [promiseFate, chainInput, mapSettingsResponseJs]
  all_goals
    simp [loadRun, getRun, loadStart, initState, settle, promiseResult, promiseFate,
      chainInput, mapSettingsResponseJs]

/-- Claim C10: for every fetch failure during `load()`, the wrapped promise
never settles: the catch handler yields `undefined`, the field access of the
mapper on the `undefined` response throws, `resolve` is never invoked, so the
`load()` call — and hence every `get()` call, which awaits it — never returns
to its awaiting callers, and the cached settings slot remains null. -/
theorem failure_promise_never_settles (status : Option Nat) (mode origin : String)
    (key : String) (dv : Option String) :
    chainInput (.failure status) = none ∧
    (∃ m, mapSettingsResponseJs (chainInput (.failure status))
      = .error (.typeError m)) ∧
    promiseFate (.failure status) = .pending ∧
    promiseResult (.failure status) = none ∧
    (loadRun (initState mode origin) (.failure status)).1 = none ∧
    (getRun (initState mode origin) (.failure status) key dv).1 = none ∧
    (loadRun (initState mode origin) (.failure status)).2.settings = none ∧
    (getRun (initState mode origin) (.failure status) key dv).2.settings = none := by
  refine ⟨rfl, ⟨_, rfl⟩, rfl, rfl, ?_, ?_, ?_, ?_⟩
  all_goals
    simp [loadRun, getRun, loadStart, initState, settle, promiseResult, promiseFate,
      chainInput, mapSettingsResponseJs]
